import Mathlib

/-!
Verification development for the pedestrian foot-traffic analytics core of the
Weaversong repository: the anonymization utilities
(`pedestrian-service/backend/app/utils/anonymization.py`), the grid
aggregation / snapshot-cache / suggestion engine
(`auth-service/backend/app/services/pedestrian_location_analysis.py`) and the
ingestion endpoint (`auth-service/backend/app/routers/pedestrian_analytics.py`).

Python strings are embedded as `List Char`, floats as `ℚ` (the quantities
involved are decimal and the claims under study are about exact decimal
rounding, not binary floating point), epoch datetimes as `ℤ` seconds, and
MongoDB collections as in-memory lists passed explicitly.  Python's `round`,
Mongo's `$round` and f-string formatting all round half to even; `pyRound`
implements that rule.
-/

set_option maxRecDepth 1000000

namespace Weaversong

attribute [local semireducible] Rat.add Rat.sub Rat.mul Rat.inv

/-- Embedding of Python `str` as a list of characters. -/
abbrev Str := List Char

/-- Decimal digits of a natural number, as characters (most significant first). -/
def natDigits (n : Nat) : Str := Nat.toDigits 10 n

/-- Decimal rendering of an integer (models Python `str`/f-string of an `int`). -/
def intDigits (n : ℤ) : Str :=
  (if n < 0 then ("-").toList else []) ++ natDigits n.natAbs

/-- Python's banker's rounding (`round`, mongo `$round`, `%.Nf` formatting):
round to the nearest integer, ties to the even integer. -/
def pyRound (q : ℚ) : ℤ :=
  let f := q.floor
  let r := q - (f : ℚ)
  if r < 1/2 then f
  else if 1/2 < r then f + 1
  else if f % 2 = 0 then f else f + 1

/-- Rounding a rational to 4 decimal places; models both Python
`round(x, 4)` (anonymization.py `round_coordinates`) and Mongo
`{"$round": [x, 4]}` (the aggregation pipelines). -/
def round4q (q : ℚ) : ℚ := ((pyRound (q * 10000) : ℤ) : ℚ) / 10000

/-- Rounding a rational to 2 decimal places; models Python `round(x, 2)`. -/
def round2q (q : ℚ) : ℚ := ((pyRound (q * 100) : ℤ) : ℚ) / 100

/-! ## SHA-256 (models Python's `hashlib.sha256(...).hexdigest()`)

A byte is a `Nat < 256`, a word a `Nat < 2^32`; overflow is explicit via
`% 4294967296`. -/

/-- 2^32, the word modulus of SHA-256. -/
def w32 : Nat := 4294967296

/-- Addition modulo 2^32. -/
def add32 (a b : Nat) : Nat := (a + b) % w32

/-- Right rotation of a 32-bit word by `n` bits. -/
def rotr32 (n x : Nat) : Nat := ((x >>> n) ||| (x <<< (32 - n))) % w32

/-- Bitwise complement within 32 bits. -/
def not32 (x : Nat) : Nat := x ^^^ (w32 - 1)

/-- SHA-256 Σ₀. -/
def bSig0 (x : Nat) : Nat := (rotr32 2 x) ^^^ (rotr32 13 x) ^^^ (rotr32 22 x)

/-- SHA-256 Σ₁. -/
def bSig1 (x : Nat) : Nat := (rotr32 6 x) ^^^ (rotr32 11 x) ^^^ (rotr32 25 x)

/-- SHA-256 σ₀. -/
def sSig0 (x : Nat) : Nat := (rotr32 7 x) ^^^ (rotr32 18 x) ^^^ (x >>> 3)

/-- SHA-256 σ₁. -/
def sSig1 (x : Nat) : Nat := (rotr32 17 x) ^^^ (rotr32 19 x) ^^^ (x >>> 10)

/-- SHA-256 Ch function. -/
def shaCh (x y z : Nat) : Nat := (x &&& y) ^^^ ((not32 x) &&& z)

/-- SHA-256 Maj function. -/
def shaMaj (x y z : Nat) : Nat := (x &&& y) ^^^ (x &&& z) ^^^ (y &&& z)

/-- The 64 SHA-256 round constants. -/
def shaK : List Nat := [
  1116352408, 1899447441, 3049323471, 3921009573, 961987163, 1508970993, 2453635748, 2870763221,
  3624381080, 310598401, 607225278, 1426881987, 1925078388, 2162078206, 2614888103, 3248222580,
  3835390401, 4022224774, 264347078, 604807628, 770255983, 1249150122, 1555081692, 1996064986,
  2554220882, 2821834349, 2952996808, 3210313671, 3336571891, 3584528711, 113926993, 338241895,
  666307205, 773529912, 1294757372, 1396182291, 1695183700, 1986661051, 2177026350, 2456956037,
  2730485921, 2820302411, 3259730800, 3345764771, 3516065817, 3600352804, 4094571909, 275423344,
  430227734, 506948616, 659060556, 883997877, 958139571, 1322822218, 1537002063, 1747873779,
  1955562222, 2024104815, 2227730452, 2361852424, 2428436474, 2756734187, 3204031479, 3329325298]

/-- The SHA-256 initial hash value. -/
def shaH0 : List Nat := [
  1779033703, 3144134277, 1013904242, 2773480762, 1359893119, 2600822924, 528734635, 1541459225]

/-- Big-endian 8-byte encoding of a natural number (the length field of the padding). -/
def bigEndian8 (n : Nat) : List Nat :=
  [(n >>> 56) % 256, (n >>> 48) % 256, (n >>> 40) % 256, (n >>> 32) % 256,
   (n >>> 24) % 256, (n >>> 16) % 256, (n >>> 8) % 256, n % 256]

/-- SHA-256 message padding: append `0x80`, zero bytes up to 56 mod 64, then the
bit length as a big-endian 64-bit integer. -/
def shaPad (msg : List Nat) : List Nat :=
  let L := msg.length
  let z := (119 - (L % 64)) % 64
  msg ++ [128] ++ List.replicate z 0 ++ bigEndian8 (8 * L)

/-- Group bytes four at a time into big-endian 32-bit words. -/
def toWords : List Nat → List Nat
  | a :: b :: c :: d :: rest => (((a * 256 + b) * 256 + c) * 256 + d) :: toWords rest
  | _ => []

/-- Extend a 16-word message block to the 64-word SHA-256 schedule. -/
def shaSchedule (block : List Nat) : List Nat :=
  (List.range 48).foldl (fun ws i =>
    ws ++ [add32 (add32 (ws.getD i 0) (sSig0 (ws.getD (i + 1) 0)))
                 (add32 (ws.getD (i + 9) 0) (sSig1 (ws.getD (i + 14) 0)))]) block

/-- One SHA-256 round on the 8-word working state. -/
def shaRound (st : List Nat) (kw : Nat × Nat) : List Nat :=
  match st with
  | [a, b, c, d, e, f, g, h] =>
    let t1 := add32 (add32 (add32 h (bSig1 e)) (add32 (shaCh e f g) kw.1)) kw.2
    let t2 := add32 (bSig0 a) (shaMaj a b c)
    [add32 t1 t2, a, b, c, add32 d t1, e, f, g]
  | l => l

/-- SHA-256 compression of one 16-word block into the running hash. -/
def shaCompress (hs : List Nat) (block : List Nat) : List Nat :=
  let w := shaSchedule block
  let st := (shaK.zip w).foldl shaRound hs
  List.zipWith add32 hs st

/-- Fold the compression function over the word stream, one 16-word block at a time. -/
def shaProcess (hs : List Nat) (buf : List Nat) : List Nat → List Nat
  | [] => hs
  | word :: ws =>
    let buf2 := buf ++ [word]
    if buf2.length = 16 then shaProcess (shaCompress hs buf2) [] ws
    else shaProcess hs buf2 ws

/-- One lowercase hexadecimal digit. -/
def hexDigit (n : Nat) : Char :=
  if n < 10 then Char.ofNat (48 + n) else Char.ofNat (87 + n)

/-- Lowercase 8-hex-digit rendering of a 32-bit word. -/
def wordToHex (n : Nat) : Str :=
  [hexDigit ((n >>> 28) % 16), hexDigit ((n >>> 24) % 16), hexDigit ((n >>> 20) % 16),
   hexDigit ((n >>> 16) % 16), hexDigit ((n >>> 12) % 16), hexDigit ((n >>> 8) % 16),
   hexDigit ((n >>> 4) % 16), hexDigit (n % 16)]

/-- The SHA-256 hex digest of a byte string; models
`hashlib.sha256(bytes).hexdigest()`. -/
def sha256hex (msg : List Nat) : Str :=
  ((shaProcess shaH0 [] (toWords (shaPad msg))).map wordToHex).flatten

/-- UTF-8 encoding of a string, as used by Python `str.encode()`; the
identifiers and salts in this code base are ASCII, for which UTF-8 is the
code point itself. -/
def strEncode (s : Str) : List Nat := s.map Char.toNat

/-! ## Anonymizer (`pedestrian-service/backend/app/utils/anonymization.py`)

Python dict values: an identifier field is `Option Str` where `none` stands
for both an absent key and a `None` value (the two behave identically in every
function of the module: the hashing branch requires the value to be truthy,
and `dict.get` yields `None` for both).  `device_info` keeps the extra level:
`none` = key absent, `some none` = key present with value `None`,
`some (some d)` = key present with a dict.  Claim-irrelevant pass-through
fields of the allow list (`accuracy`, `timestamp`, `speed`, `heading`,
`is_active`) are not modelled; keys outside the allow list are modelled by
their names in `extras`. -/

/-- Device-info dict: each field is `some v` when the key is present. -/
structure DeviceInfo where
  type_ : Option Str
  os : Option Str
  browser : Option Str
  model : Option Str
  version : Option Str
deriving DecidableEq

/-- A location-data dict as handled by `anonymize_location_data`. -/
structure LocationData where
  user_id : Option Str
  session_id : Option Str
  device_info : Option (Option DeviceInfo)
  latitude : Option ℚ
  longitude : Option ℚ
  extras : List Str
deriving DecidableEq

/-- Python truthiness of an optional string (`None` and `""` are falsy). -/
def isTruthyStr : Option Str → Bool
  | none => false
  | some s => !s.isEmpty

/-- Python truthiness of a device-info dict (`{}` is falsy). -/
def deviceTruthy (d : DeviceInfo) : Bool :=
  d.type_.isSome || d.os.isSome || d.browser.isSome || d.model.isSome || d.version.isSome

/-- The marker prepended to hashed identifiers. -/
def anonMarker : Str := ("anon_").toList

/-- The prefix `is_data_anonymized` expects on session ids (the one produced
by `generate_anonymous_session_id`, not by `anonymize_session_id`). -/
def sessionMarker : Str := ("anon_session_").toList

/-- Source `hash_identifier`: salted SHA-256, truncated to 16 hex characters,
prefixed with `anon_`; `None`/empty identifiers yield `None`. -/
def hashIdentifier (identifier : Option Str) (salt : Str) : Option Str :=
  match identifier with
  | none => none
  | some id =>
    if id.isEmpty then none
    else some (anonMarker ++ (sha256hex (strEncode (id ++ salt))).take 16)

/-- Source `anonymize_user_id`. -/
def anonymizeUserId (user_id : Option Str) : Option Str :=
  hashIdentifier user_id (("user_id_salt").toList)

/-- Source `anonymize_session_id`. -/
def anonymizeSessionId (session_id : Option Str) : Option Str :=
  hashIdentifier session_id (("session_id_salt").toList)

/-- Lowercasing of a Python string (`str.lower`, ASCII range). -/
def strToLower (s : Str) : Str := s.map Char.toLower

/-- Python substring test `pat in s`. -/
def strContains (s pat : Str) : Bool := s.tails.any (fun t => pat.isPrefixOf t)

/-- Normalization of the `type` value in `sanitize_device_info`
(`device_type = device_info.get("type", "").lower()` and the chain of
membership tests). -/
def normType (t : Str) : Str :=
  if strToLower t = ("mobile").toList ∨ strToLower t = ("smartphone").toList
      ∨ strToLower t = ("phone").toList then
    ("mobile").toList
  else if strToLower t = ("tablet").toList ∨ strToLower t = ("ipad").toList then
    ("tablet").toList
  else if strToLower t = ("desktop").toList ∨ strToLower t = ("laptop").toList
      ∨ strToLower t = ("computer").toList then
    ("desktop").toList
  else ("unknown").toList

/-- Normalization of the `os` value in `sanitize_device_info`
(`os_name = device_info.get("os", "").lower()` and the chain of substring
tests). -/
def normOS (t : Str) : Str :=
  if strContains (strToLower t) (("android").toList) then ("Android").toList
  else if strContains (strToLower t) (("ios").toList)
      || strContains (strToLower t) (("iphone").toList)
      || strContains (strToLower t) (("ipad").toList) then ("iOS").toList
  else if strContains (strToLower t) (("windows").toList) then ("Windows").toList
  else if strContains (strToLower t) (("mac").toList)
      || strContains (strToLower t) (("darwin").toList) then ("macOS").toList
  else if strContains (strToLower t) (("linux").toList) then ("Linux").toList
  else ("Unknown").toList

/-- Source `sanitize_device_info`: keep only normalized `type` and `os`;
falsy input (`None` or `{}`) and an empty sanitized dict yield `None`. -/
def sanitizeDeviceInfo : Option DeviceInfo → Option DeviceInfo
  | none => none
  | some d =>
    if deviceTruthy d then
      let s : DeviceInfo :=
        { type_ := d.type_.map normType, os := d.os.map normOS,
          browser := none, model := none, version := none }
      if deviceTruthy s then some s else none
    else none

/-- Source `anonymize_location_data`: hash truthy identifiers, sanitize
`device_info` when the key is present, round coordinates to 4 decimals when
both are present, drop all keys outside the allow list. -/
def anonymizeLocationData (d : LocationData) : LocationData :=
  let u := if isTruthyStr d.user_id then anonymizeUserId d.user_id else d.user_id
  let s := if isTruthyStr d.session_id then anonymizeSessionId d.session_id else d.session_id
  let di := d.device_info.map sanitizeDeviceInfo
  let co := match d.latitude, d.longitude with
    | some la, some lo => (some (round4q la), some (round4q lo))
    | la, lo => (la, lo)
  { user_id := u, session_id := s, device_info := di,
    latitude := co.1, longitude := co.2, extras := [] }

/-- Source `is_data_anonymized`: identifiers absent or carrying the expected
prefixes (`anon_` for user ids, `anon_session_` for session ids) and no
`browser`/`model`/`version` key in a truthy `device_info`. -/
def isDataAnonymized (d : LocationData) : Bool :=
  let userAnon := match d.user_id with
    | none => true
    | some s => anonMarker.isPrefixOf s
  let sessionAnon := match d.session_id with
    | none => true
    | some s => sessionMarker.isPrefixOf s
  let dev := match d.device_info with
    | none => none
    | some v => v
  let deviceAnon := match dev with
    | none => true
    | some di =>
      if deviceTruthy di then di.browser = none && di.model = none && di.version = none
      else true
  userAnon && sessionAnon && deviceAnon

/-! ## Grid aggregator
(`auth-service/backend/app/services/pedestrian_location_analysis.py`)

The `pedestrian_data` point store is a list of documents with the fields the
ingestion endpoint writes.  (The derived calendar-date string `date` is not
modelled: no operation of the analysis service reads it.)  The Mongo
aggregation pipeline is embedded directly: `$group` by the 4-decimal-rounded
coordinate pair in first-appearance order, `$match` on the count, `$sort` by
count descending (Mongo's sort is stable). -/

/-- A stored pedestrian-data document. -/
structure PedSample where
  lat : ℚ
  lng : ℚ
  timestamp : ℤ
  hour : ℕ
  day_of_week : ℕ
  created_at : ℤ
deriving DecidableEq

/-- A per-cell `LocationGroup` value of the aggregation result. -/
structure LocationGroup where
  grid_key : Str
  lat : ℚ
  lng : ℚ
  count : ℕ
  traffic_score : ℚ
  hourly_distribution : List (ℕ × ℕ)
  daily_distribution : List (ℕ × ℕ)
  peak_hours : List ℕ
  peak_hour_counts : List ℕ
  first_seen : ℤ
  last_seen : ℤ
  address : Option Str
  area_name : Option Str
deriving DecidableEq

/-- The output document of the `$group` stage of the pipeline. -/
structure GroupDoc where
  grid_lat : ℚ
  grid_lng : ℚ
  count : ℕ
  avg_lat : ℚ
  avg_lng : ℚ
  hours : List ℕ
  days_of_week : List ℕ
  timestamps : List ℤ
deriving DecidableEq

/-- Source constant `GRID_SIZE = 0.001`. -/
def GRID_SIZE : ℚ := 1/1000

/-- Python f-string `f"{x:.4f}"` for a rational: round to 4 decimals
(half-to-even, exact on the inputs produced by `get_grid_key`, which are
multiples of `0.001`) and print with exactly four fractional digits. -/
def formatQ4 (q : ℚ) : Str :=
  let t := pyRound (q * 10000)
  let n := t.natAbs
  let frac := natDigits (n % 10000)
  (if t < 0 then ("-").toList else []) ++ natDigits (n / 10000) ++ (".").toList
    ++ List.replicate (4 - frac.length) '0' ++ frac

/-- Source `get_grid_key`: snap each coordinate to the `GRID_SIZE` grid and
format the pair as `"lat,lng"` with four decimals. -/
def getGridKey (lat lng : ℚ) : Str :=
  formatQ4 (((pyRound (lat / GRID_SIZE) : ℤ) : ℚ) * GRID_SIZE) ++ (",").toList
    ++ formatQ4 (((pyRound (lng / GRID_SIZE) : ℤ) : ℚ) * GRID_SIZE)

/-- Timestamp filter of the pipeline's `$match` stage (`$gte` start, `$lte` end). -/
def inDateRange (ts : ℤ) (startTs endTs : Option ℤ) : Bool :=
  (match startTs with | some a => decide (a ≤ ts) | none => true)
    && (match endTs with | some b => decide (ts ≤ b) | none => true)

/-- Append `v` to the group of key `k`, or start a new group at the end
(first-appearance grouping order). -/
def groupUpsert : List ((ℚ × ℚ) × List PedSample) → (ℚ × ℚ) → PedSample →
    List ((ℚ × ℚ) × List PedSample)
  | [], k, v => [(k, [v])]
  | (k2, l) :: rest, k, v =>
    if k2 = k then (k2, l ++ [v]) :: rest else (k2, l) :: groupUpsert rest k v

/-- The `$group` stage: partition samples by their 4-decimal-rounded
coordinate pair. -/
def groupByCell (samples : List PedSample) : List ((ℚ × ℚ) × List PedSample) :=
  samples.foldl (fun acc s => groupUpsert acc (round4q s.lat, round4q s.lng) s) []

/-- Sum of a list of rationals. -/
def qsum (l : List ℚ) : ℚ := l.foldl (· + ·) 0

/-- Minimum of a list of integers (Python `min`; groups are nonempty). -/
def intsMin : List ℤ → ℤ
  | [] => 0
  | x :: xs => xs.foldl min x

/-- Maximum of a list of integers (Python `max`; groups are nonempty). -/
def intsMax : List ℤ → ℤ
  | [] => 0
  | x :: xs => xs.foldl max x

/-- Assemble one `$group` output document from a cell and its members. -/
def mkGroupDoc (cell : (ℚ × ℚ) × List PedSample) : GroupDoc :=
  { grid_lat := cell.1.1, grid_lng := cell.1.2,
    count := cell.2.length,
    avg_lat := qsum (cell.2.map (·.lat)) / cell.2.length,
    avg_lng := qsum (cell.2.map (·.lng)) / cell.2.length,
    hours := cell.2.map (·.hour),
    days_of_week := cell.2.map (·.day_of_week),
    timestamps := cell.2.map (·.timestamp) }

/-- Bump the tally of `x` in an insertion-ordered association list
(a Python `defaultdict(int)` whose iteration order is key-insertion order). -/
def tallyBump : List (ℕ × ℕ) → ℕ → List (ℕ × ℕ)
  | [], x => [(x, 1)]
  | (k, c) :: rest, x =>
    if k = x then (k, c + 1) :: rest else (k, c) :: tallyBump rest x

/-- Tally of a list in first-appearance order (the `hour_distribution` /
`day_distribution` loops). -/
def tally (l : List ℕ) : List (ℕ × ℕ) := l.foldl tallyBump []

/-- Insert into a descending-by-key list, after all entries of
greater-or-equal key (the insertion step of a stable descending sort). -/
def insertDescBy {α β : Type} [LinearOrder β] (f : α → β) (x : α) :
    List α → List α
  | [] => [x]
  | y :: ys => if f x ≤ f y then y :: insertDescBy f x ys else x :: y :: ys

/-- Stable descending sort by a key, as Python's
`sorted(..., key=..., reverse=True)` / `list.sort` and Mongo's `$sort`. -/
def sortDescBy {α β : Type} [LinearOrder β] (f : α → β) (l : List α) : List α :=
  l.foldl (fun acc x => insertDescBy f x acc) []

/-- Sorted tally of an hour list, descending by count (stable). -/
def sortedTally (hours : List ℕ) : List (ℕ × ℕ) :=
  sortDescBy (fun p => p.2) (tally hours)

/-- Source peak-hour selection: top of the stable descending-by-count sort of
the hour distribution, truncated to 3 entries. -/
def peakHourPairs (hours : List ℕ) : List (ℕ × ℕ) := (sortedTally hours).take 3

/-- The `peak_hours` list: hours of the top-3 pairs. -/
def peakHoursOf (hours : List ℕ) : List ℕ := (peakHourPairs hours).map Prod.fst

/-- The `peak_multiplier` loop: start at `1.0` and add `0.2` for every peak
hour inside business hours (`8 <= hour <= 20`). -/
def peakMultiplier (peaks : List (ℕ × ℕ)) : ℚ :=
  peaks.foldl (fun m p => if 8 ≤ p.1 ∧ p.1 ≤ 20 then m + 1/5 else m) 1

/-- Build the per-cell `LocationGroup` from a `$group` document (the body of
the `async for` loop of `group_pedestrian_data_by_location`). -/
def mkLocationGroup (doc : GroupDoc) : LocationGroup :=
  let peaks := peakHourPairs doc.hours
  { grid_key := getGridKey doc.grid_lat doc.grid_lng,
    lat := doc.avg_lat, lng := doc.avg_lng, count := doc.count,
    traffic_score := round2q ((doc.count : ℚ) * peakMultiplier peaks),
    hourly_distribution := tally doc.hours,
    daily_distribution := tally doc.days_of_week,
    peak_hours := peaks.map Prod.fst,
    peak_hour_counts := peaks.map Prod.snd,
    first_seen := intsMin doc.timestamps,
    last_seen := intsMax doc.timestamps,
    address := none, area_name := none }

/-- Python dict assignment `d[k] = v`: replace in place or append. -/
def dictUpsert {α : Type} : List (Str × α) → Str → α → List (Str × α)
  | [], k, v => [(k, v)]
  | (k2, w) :: rest, k, v =>
    if k2 = k then (k2, v) :: rest else (k2, w) :: dictUpsert rest k v

/-- Source `group_pedestrian_data_by_location`: date-filter the point store,
group by the 4-decimal-rounded coordinates, drop groups below `min_count`,
sort by count descending, then write each group into the result dict under
`get_grid_key(grid_lat, grid_lng)` (later groups overwrite earlier ones that
land on the same key). -/
def groupPedestrianDataByLocation (samples : List PedSample)
    (startTs endTs : Option ℤ) (min_count : ℕ) : List (Str × LocationGroup) :=
  let docs := (groupByCell (samples.filter (fun s => inDateRange s.timestamp startTs endTs))).map
    mkGroupDoc
  let docs := docs.filter (fun d => min_count ≤ d.count)
  let docs := sortDescBy (fun d => d.count) docs
  docs.foldl (fun acc d => dictUpsert acc (mkLocationGroup d).grid_key (mkLocationGroup d)) []

/-! ## Ingestion endpoint
(`auth-service/backend/app/routers/pedestrian_analytics.py`, `record_pedestrian_data`) -/

/-- Request body `PedestrianDataCreate` (`app/models/pedestrian.py`). -/
structure PedestrianDataCreate where
  lat : ℚ
  lng : ℚ
  timestamp : Option ℤ
deriving DecidableEq

/-- Hour of day of an epoch timestamp; models
`datetime.fromtimestamp(ts).hour` with the server clock at UTC (the claims
under study do not depend on the timezone). -/
def hourOfTimestamp (ts : ℤ) : ℕ := ((ts.fdiv 3600) % 24).toNat

/-- Python `weekday()` (0 = Monday) of an epoch timestamp under UTC; epoch
day zero, 1970-01-01, was a Thursday (= 3). -/
def dayOfWeekOfTimestamp (ts : ℤ) : ℕ := ((ts.fdiv 86400 + 3) % 7).toNat

/-- Source `record_pedestrian_data`: validate the Bucharest bounding box,
derive the time fields, insert exactly one document; out-of-bounds input
raises HTTP 400 and writes nothing.  `now` is the server clock (epoch
seconds); the error value is the HTTP status code. -/
def recordPedestrianData (data : PedestrianDataCreate) (now : ℤ)
    (store : List PedSample) : Except ℕ (List PedSample × Str) :=
  if (4435/100 : ℚ) ≤ data.lat ∧ data.lat ≤ 4455/100
      ∧ (2595/100 : ℚ) ≤ data.lng ∧ data.lng ≤ 2625/100 then
    let ts := match data.timestamp with
      | some t => if t = 0 then now else t
      | none => now
    let doc : PedSample :=
      { lat := data.lat, lng := data.lng, timestamp := ts,
        hour := hourOfTimestamp ts, day_of_week := dayOfWeekOfTimestamp ts,
        created_at := now }
    .ok (store ++ [doc], ("Pedestrian data recorded successfully").toList)
  else
    .error 400

/-- The store after an ingestion attempt: the error path leaves it untouched. -/
def storeAfterRecord (r : Except ℕ (List PedSample × Str))
    (store : List PedSample) : List PedSample :=
  match r with
  | .ok (s, _) => s
  | .error _ => store

/-! ## Snapshot cache (`get_or_create_snapshot`)

The snapshot collection is a list of `Snapshot` documents; `update_one` with
`upsert=True` on the key filter replaces the first document with that key or
appends.  The reverse-geocoding collaborator is a parameter
`geocode : ℚ → ℚ → Option Str`; its failures (`None`, exceptions) leave the
address fields empty. -/

/-- A `pedestrian_analysis_snapshots` document. -/
structure Snapshot where
  snapshot_key : Str
  start_date : ℤ
  end_date : ℤ
  location_groups : List (Str × LocationGroup)
  total_locations : ℕ
  created_at : ℤ
  expires_at : ℤ
deriving DecidableEq

/-- Source constant `SNAPSHOT_EXPIRY_HOURS = 24`, in seconds. -/
def SNAPSHOT_EXPIRY_SECONDS : ℤ := 24 * 3600

/-- The snapshot key `f"{start_ts}_{end_ts}"`. -/
def snapshotKeyOf (startTs endTs : ℤ) : Str :=
  intDigits startTs ++ ("_").toList ++ intDigits endTs

/-- The freshness filter of the cache lookup: same key, created within the
last 24 hours. -/
def isFreshFor (key : Str) (now : ℤ) (s : Snapshot) : Bool :=
  decide (s.snapshot_key = key ∧ now - SNAPSHOT_EXPIRY_SECONDS ≤ s.created_at)

/-- Mongo `update_one({"snapshot_key": key}, {"$set": snap}, upsert=True)`:
replace the first document with the key, else append. -/
def upsertSnapshot : List Snapshot → Str → Snapshot → List Snapshot
  | [], _, s => [s]
  | t :: rest, key, s =>
    if t.snapshot_key = key then s :: rest else t :: upsertSnapshot rest key s

/-- Best-effort address enrichment of one group (the `reverse_geocode` loop;
failures and empty addresses leave the group unchanged, `area_name` is the
part of the address before the first comma). -/
def enrichGroup (geocode : ℚ → ℚ → Option Str) (g : LocationGroup) : LocationGroup :=
  match geocode g.lat g.lng with
  | some a =>
    if a.isEmpty then g
    else { g with address := some a,
                  area_name := some (a.takeWhile (fun c => c ≠ ',')) }
  | none => g

/-- The key `get_or_create_snapshot` derives: the date range defaults to
end = now and start = end − 30 days, and the key is `f"{start_ts}_{end_ts}"`. -/
def snapKeyFor (now : ℤ) (startTs endTs : Option ℤ) : Str :=
  snapshotKeyOf (startTs.getD (endTs.getD now - 30 * 86400)) (endTs.getD now)

/-- The cache lookup of `get_or_create_snapshot`: skipped entirely under
`force_refresh`, else the first stored fresh snapshot under the key. -/
def cacheLookup (snapStore : List Snapshot) (now : ℤ) (key : Str)
    (force : Bool) : Option Snapshot :=
  if force then none else snapStore.find? (isFreshFor key now)

/-- The snapshot-creation path of `get_or_create_snapshot`: aggregate the
defaulted date range (`min_count` default 10), enrich each group with a
best-effort address, and assemble the document created at `now` and expiring
24 hours later. -/
def freshSnapshot (pointStore : List PedSample) (now : ℤ)
    (geocode : ℚ → ℚ → Option Str) (startTs endTs : Option ℤ) : Snapshot :=
  let endD := endTs.getD now
  let startD := startTs.getD (endD - 30 * 86400)
  let lgs := (groupPedestrianDataByLocation pointStore (some startD)
      (some endD) 10).map (fun p => (p.1, enrichGroup geocode p.2))
  { snapshot_key := snapshotKeyOf startD endD, start_date := startD,
    end_date := endD, location_groups := lgs, total_locations := lgs.length,
    created_at := now, expires_at := now + SNAPSHOT_EXPIRY_SECONDS }

/-- Source `get_or_create_snapshot`: serve a fresh cached snapshot unless
`force_refresh` (the str→datetime back-conversion the source applies to the
cached document's date fields is the identity in this model), otherwise
create a fresh snapshot and upsert it under the key.  Returns the snapshot
and the new snapshot store. -/
def getOrCreateSnapshot (pointStore : List PedSample) (snapStore : List Snapshot)
    (now : ℤ) (geocode : ℚ → ℚ → Option Str) (startTs endTs : Option ℤ)
    (force_refresh : Bool) : Snapshot × List Snapshot :=
  match cacheLookup snapStore now (snapKeyFor now startTs endTs) force_refresh with
  | some s => (s, snapStore)
  | none =>
    (freshSnapshot pointStore now geocode startTs endTs,
     upsertSnapshot snapStore (snapKeyFor now startTs endTs)
       (freshSnapshot pointStore now geocode startTs endTs))

/-! ## Suggestion engine (`suggest_business_locations_simple` /
`suggest_business_locations_with_ai`)

The generative collaborator is modelled by its outcome: `none` when it is
unavailable or fails (missing key, request error, no candidates — every path
that falls back), `some parsed` when a JSON array was parsed from its
response. -/

/-- One suggestion record. -/
structure Suggestion where
  rank : ℤ
  lat : ℚ
  lng : ℚ
  address : Str
  traffic_score : ℚ
  reasoning : Str
  business_type : Str
  estimated_daily_visitors : ℤ
  best_hours : List ℕ
  recommendations : List Str
deriving DecidableEq

/-- Dict lookup with default, `d.get(h, 0)`, on a tally association list. -/
def tallyGetD (l : List (ℕ × ℕ)) (h : ℕ) : ℕ :=
  match l.find? (fun p => p.1 == h) with
  | some p => p.2
  | none => 0

/-- The business-type score adjustment of the simple scorer. -/
def scoreFor (business_type : Str) (g : LocationGroup) : ℚ :=
  if business_type = ("vending_machine").toList then
    g.traffic_score * (1 + (g.hourly_distribution.length : ℚ) * (1/10))
  else if business_type = ("cafe").toList ∨ business_type = ("restaurant").toList then
    let lunch := ([11, 12, 13, 14] : List ℕ).foldl
      (fun a h => a + tallyGetD g.hourly_distribution h) 0
    let dinner := ([18, 19, 20, 21] : List ℕ).foldl
      (fun a h => a + tallyGetD g.hourly_distribution h) 0
    g.traffic_score * (1 + ((lunch + dinner : ℕ) : ℚ) * (1/100))
  else g.traffic_score

/-- One pre-ranking suggestion record of the simple scorer. -/
def mkSimpleSuggestion (business_type : Str) (g : LocationGroup) : Suggestion :=
  { rank := 0, lat := g.lat, lng := g.lng,
    address := g.address.getD (("Unknown").toList),
    traffic_score := scoreFor business_type g,
    reasoning := ("High traffic location with ").toList ++ natDigits g.count
      ++ (" pedestrian records. Peak hours: ").toList
      ++ List.intercalate ((", ").toList) (g.peak_hours.map natDigits),
    business_type := business_type,
    estimated_daily_visitors := (g.count : ℤ),
    best_hours := g.peak_hours,
    recommendations := [("Consider ").toList ++ business_type
      ++ (" placement here due to high foot traffic").toList] }

/-- The rank-assignment loop `for i, loc in enumerate(scored[:max], 1)`. -/
def assignRanks (i : ℕ) : List Suggestion → List Suggestion
  | [] => []
  | s :: rest => { s with rank := (i : ℤ) } :: assignRanks (i + 1) rest

/-- Source `suggest_business_locations_simple`: score every group, sort by
score descending (stable), truncate to `max_suggestions`, assign ranks 1.. . -/
def suggestBusinessLocationsSimple (lgs : List (Str × LocationGroup))
    (business_type : Str) (max_suggestions : ℕ) : List Suggestion :=
  let scored := lgs.map (fun p => mkSimpleSuggestion business_type p.2)
  let scored := sortDescBy (fun s => s.traffic_score) scored
  assignRanks 1 (scored.take max_suggestions)

/-- One element of the JSON array parsed from the collaborator's response:
every field the formatting loop reads, `none` when the key is missing. -/
structure ParsedSuggestion where
  rank : Option ℤ
  lat : Option ℚ
  lng : Option ℚ
  address : Option Str
  traffic_score : Option ℚ
  reasoning : Option Str
  estimated_daily_visitors : Option ℤ
  best_hours : Option (List ℕ)
  recommendations : Option (List Str)
deriving DecidableEq

/-- One iteration of the validation/formatting loop over the parsed AI
suggestions: keep an entry iff it carries both coordinates; the rank is taken
from the response, defaulting to the current output length plus one. -/
def formatAIStep (business_type : Str) (acc : List Suggestion)
    (s : ParsedSuggestion) : List Suggestion :=
  match s.lat, s.lng with
  | some la, some lo =>
    acc ++ [{ rank := s.rank.getD ((acc.length : ℤ) + 1), lat := la, lng := lo,
              address := s.address.getD (("Unknown").toList),
              traffic_score := s.traffic_score.getD 0,
              reasoning := s.reasoning.getD [],
              business_type := business_type,
              estimated_daily_visitors := s.estimated_daily_visitors.getD 0,
              best_hours := s.best_hours.getD [],
              recommendations := s.recommendations.getD [] }]
  | _, _ => acc

/-- The validation/formatting loop
(`for suggestion in suggestions[:max_suggestions]`). -/
def formatAISuggestions (suggestions : List ParsedSuggestion)
    (business_type : Str) (max_suggestions : ℕ) : List Suggestion :=
  (suggestions.take max_suggestions).foldl (formatAIStep business_type) []

/-- Source `suggest_business_locations_with_ai`: format the collaborator's
parsed output, or fall back to the simple scorer when it is unavailable or
failed. -/
def suggestBusinessLocationsWithAI (aiOutcome : Option (List ParsedSuggestion))
    (lgs : List (Str × LocationGroup)) (business_type : Str)
    (max_suggestions : ℕ) : List Suggestion :=
  match aiOutcome with
  | some parsed => formatAISuggestions parsed business_type max_suggestions
  | none => suggestBusinessLocationsSimple lgs business_type max_suggestions

/-! ## Top-level analysis (`analyze_pedestrian_locations`) -/

/-- The response record of the top-level analysis function. -/
structure AnalysisResult where
  analysis_date : ℤ
  start_date : ℤ
  end_date : ℤ
  total_locations_analyzed : ℕ
  location_groups : List (Str × LocationGroup)
  suggestions : List Suggestion
  snapshot_key : Str
  from_cache : Bool
deriving DecidableEq

/-- Python `"created_at" in snapshot`: in this model the field always exists
(both the creation path and every upserted document set it). -/
def snapshotHasCreatedAt (_ : Snapshot) : Bool := true

set_option linter.unusedVariables false in
/-- Source `analyze_pedestrian_locations`: get or create the snapshot, run
the suggestion engine on its location groups, and assemble the response;
`from_cache` is computed as `not force_refresh and "created_at" in snapshot`,
and `use_cache` is accepted but never read. -/
def analyzePedestrianLocations (pointStore : List PedSample)
    (snapStore : List Snapshot) (now : ℤ) (geocode : ℚ → ℚ → Option Str)
    (aiOutcome : Option (List ParsedSuggestion)) (startTs endTs : Option ℤ)
    (business_type : Str) (max_suggestions : ℕ) (use_cache : Bool)
    (force_refresh : Bool) : AnalysisResult × List Snapshot :=
  let r := getOrCreateSnapshot pointStore snapStore now geocode startTs endTs force_refresh
  let snapshot := r.1
  let suggestions := suggestBusinessLocationsWithAI aiOutcome snapshot.location_groups
    business_type max_suggestions
  ({ analysis_date := now, start_date := snapshot.start_date,
     end_date := snapshot.end_date,
     total_locations_analyzed := snapshot.total_locations,
     location_groups := snapshot.location_groups,
     suggestions := suggestions,
     snapshot_key := snapshot.snapshot_key,
     from_cache := !force_refresh && snapshotHasCreatedAt snapshot }, r.2)

/-! ## Claim-side definitions

These definitions follow the wording of the specification (not the source)
and are compared against the source-derived definitions above. -/

/-- Modelled from the spec's words (§4.2/§8): top 3 hours by descending
count, ties broken by ascending hour number. -/
def specPeakInsert (x : ℕ × ℕ) : List (ℕ × ℕ) → List (ℕ × ℕ)
  | [] => [x]
  | y :: ys =>
    if x.2 < y.2 ∨ (x.2 = y.2 ∧ y.1 < x.1) then y :: specPeakInsert x ys
    else x :: y :: ys

/-- Modelled from the spec's words: the peak-hour list with the ascending-hour
tie-break the claim describes. -/
def specPeakHoursAscTie (hours : List ℕ) : List ℕ :=
  (((tally hours).foldl (fun acc x => specPeakInsert x acc) []).take 3).map Prod.fst

/-- The bounding box of claim C5 (min_lat 44.35, max_lat 44.55, min_lng 25.95,
max_lng 26.25), written from the claim's numbers. -/
def claimInBucharest (lat lng : ℚ) : Prop :=
  4435/100 ≤ lat ∧ lat ≤ 4455/100 ∧ 2595/100 ≤ lng ∧ lng ≤ 2625/100

instance (lat lng : ℚ) : Decidable (claimInBucharest lat lng) := by
  unfold claimInBucharest; infer_instance

/-- The document the ingestion endpoint stores for an accepted sample. -/
def ingestDoc (data : PedestrianDataCreate) (now : ℤ) : PedSample :=
  let ts := match data.timestamp with
    | some t => if t = 0 then now else t
    | none => now
  { lat := data.lat, lng := data.lng, timestamp := ts,
    hour := hourOfTimestamp ts, day_of_week := dayOfWeekOfTimestamp ts,
    created_at := now }

/-- Whether an ingestion attempt was accepted (stored). -/
def ingestAccepted (r : Except ℕ (List PedSample × Str)) : Bool :=
  match r with
  | .ok _ => true
  | .error _ => false

/-! ## Fixtures and auxiliary definitions for the claim theorems -/

/-- Point-store fixture for claim C1: two samples 30 m apart, inside one
`0.001°` grid cell but with distinct 4-decimal roundings. -/
def c1Samples : List PedSample :=
  [⟨444271/10000, 261/10, 100, 9, 1, 0⟩, ⟨444274/10000, 261/10, 200, 10, 2, 0⟩]

/-- The `0.001°` grid key both C1 fixture samples fall in. -/
def c1Key : Str := getGridKey (444271/10000) (261/10)

/-- Location-data fixture for claims C2: a sample carrying a raw user id. -/
def aliceSample : LocationData :=
  ⟨some (("alice@example.com").toList), none, none, none, none, []⟩

/-- Fixture for the C2 witness: no identifiers, but a device dict and
coordinates that the anonymizer has to normalize. -/
def c2Witness : LocationData :=
  ⟨none, none,
   some (some ⟨some (("Smartphone").toList), some (("Android 12").toList),
     some (("Chrome").toList), some (("Pixel 7").toList), some (("120.0").toList)⟩),
   some (4442712345/100000000), some (261234567/10000000), [("ip_address").toList]⟩

/-- Fixture for the C9 witness: a raw user id, no session id. -/
def c9Witness : LocationData :=
  ⟨some (("bob").toList), none,
   some (some ⟨some (("tablet").toList), some (("iPadOS 17").toList),
     some (("Safari").toList), none, none⟩), none, none, []⟩

/-- Sum of the values of a tally association list. -/
def sumValues (l : List (ℕ × ℕ)) : ℕ := (l.map Prod.snd).sum

/-- Point-store fixture for the C4 witness: three samples in one cell. -/
def c4Samples : List PedSample :=
  [⟨444302/10000, 260501/10000, 100, 9, 1, 0⟩,
   ⟨444302/10000, 260501/10000, 160, 9, 1, 0⟩,
   ⟨444302/10000, 260501/10000, 220, 17, 2, 0⟩]

/-- Aggregation run of the C4 fixture. -/
def c4Run : List (Str × LocationGroup) :=
  groupPedestrianDataByLocation c4Samples none none 1

/-- First entry of the C4 aggregation run. -/
def c4Pair : Str × LocationGroup :=
  c4Run.headD (getGridKey 0 0, mkLocationGroup (mkGroupDoc ((0, 0), [])))

/-- Point-store fixture for the C7 witness: one cell, peak hours 9, 12
(business hours) and 22 (off-hours). -/
def c7Samples : List PedSample :=
  [⟨444100/10000, 261000/10000, 10, 9, 0, 0⟩,
   ⟨444100/10000, 261000/10000, 20, 9, 0, 0⟩,
   ⟨444100/10000, 261000/10000, 30, 12, 1, 0⟩,
   ⟨444100/10000, 261000/10000, 40, 22, 1, 0⟩]

/-- Aggregation run of the C7 fixture. -/
def c7Run : List (Str × LocationGroup) :=
  groupPedestrianDataByLocation c7Samples none none 1

/-- First entry of the C7 aggregation run. -/
def c7Pair : Str × LocationGroup :=
  c7Run.headD (getGridKey 0 0, mkLocationGroup (mkGroupDoc ((0, 0), [])))

/-- At most one snapshot per key: all stored keys are pairwise distinct. -/
def snapKeysDistinct (ss : List Snapshot) : Prop :=
  ss.Pairwise (fun a b => a.snapshot_key ≠ b.snapshot_key)

instance (ss : List Snapshot) : Decidable (snapKeysDistinct ss) := by
  unfold snapKeysDistinct; infer_instance

/-- A fresh cached snapshot for the C6 witness. -/
def c6Snap : Snapshot :=
  { snapshot_key := snapshotKeyOf 0 1000, start_date := 0, end_date := 1000,
    location_groups := [], total_locations := 0, created_at := 990,
    expires_at := 990 + 86400 }

/-! ## Claim theorems -/

/-- Sanity anchor for the SHA-256 embedding: the FIPS 180-2 test vector. -/
lemma sha256hex_testvector :
    sha256hex (strEncode ("abc").toList)
      = ("ba7816bf8f01cfea414140de5dae2223b00361a396177a9cb410ff61f20015ad").toList := by
  decide



/-- C1: the aggregator does NOT group at the 0.001° grid precision.  The
pipeline groups by the 4-decimal (0.0001°) rounding and only then maps each
group to a 0.001° grid key, so two samples of the same 0.001° cell form two
pipeline groups that collapse onto one key, one overwriting the other: with
`min_count = 1` the returned cell reports count 1 although 2 samples round
into it, and with `min_count = 2` the cell disappears entirely although it
holds 2 samples. -/
theorem claim_C1_grid_collapse :
    ((groupPedestrianDataByLocation c1Samples none none 1).map
        (fun p => (p.1, p.2.count)) = [(c1Key, 1)])
    ∧ (c1Samples.filter (fun s => getGridKey s.lat s.lng == c1Key)).length = 2
    ∧ groupPedestrianDataByLocation c1Samples none none 2 = [] := by
  decide



/-- C2 is false as stated: `anonymize_location_data` re-hashes an
already-hashed identifier (nothing guards the `anon_` prefix), so the second
application changes `user_id`. -/
theorem claim_C2_counterexample :
    (anonymizeLocationData (anonymizeLocationData aliceSample)).user_id
      ≠ (anonymizeLocationData aliceSample).user_id
    ∧ (anonymizeLocationData aliceSample).user_id
      = some (("anon_7b5ade9fd3faf94d").toList)
    ∧ (anonymizeLocationData (anonymizeLocationData aliceSample)).user_id
      = some (("anon_76c70adec4535e98").toList) := by
  decide

/-- C3 is false as stated: the source's peak-hour selection is a stable
descending sort by count, so equal counts keep their first-appearance order
(here 5 before 3) instead of the ascending-hour order the claim states. -/
theorem claim_C3_counterexample :
    peakHoursOf [5, 3, 3, 5, 7, 7, 2] = [5, 3, 7]
    ∧ specPeakHoursAscTie [5, 3, 3, 5, 7, 7, 2] = [3, 5, 7]
    ∧ peakHoursOf [5, 3, 3, 5, 7, 7, 2] ≠ specPeakHoursAscTie [5, 3, 3, 5, 7, 7, 2] := by
  decide

/-- C8 is false as stated: in the AI path the rank field is copied from the
collaborator's response (`suggestion.get("rank", ...)`); a response whose
single entry carries rank 7 produces the rank list `[7]`, not `1..N = [1]`. -/
theorem claim_C8_counterexample :
    (suggestBusinessLocationsWithAI
        (some [⟨some 7, some 1, some 1, none, none, none, none, none, none⟩])
        [] (("general").toList) 10).map Suggestion.rank = [7]
    ∧ (suggestBusinessLocationsWithAI
        (some [⟨some 7, some 1, some 1, none, none, none, none, none, none⟩])
        [] (("general").toList) 10).map Suggestion.rank ≠ [1] := by
  decide

/-- C9 is false as stated: `anonymize_session_id` produces `anon_` + 16 hex
characters, but `is_data_anonymized` demands the prefix `anon_session_` on
session ids, so the anonymized output of any sample with a non-empty raw
session id fails the predicate. -/
theorem claim_C9_counterexample :
    isDataAnonymized (anonymizeLocationData
      ⟨none, some (("sess-123").toList), none, none, none, []⟩) = false
    ∧ (anonymizeLocationData
        ⟨none, some (("sess-123").toList), none, none, none, []⟩).session_id
      = some (("anon_45523b6e327024b5").toList) := by
  decide

/-- C5: a raw sample is stored iff both coordinates lie inside the claim's
bounding box; an accepted sample appends exactly its derived document to the
point store, an out-of-bounds sample yields HTTP 400 and leaves the store
untouched. -/
theorem claim_C5_bounds_iff_stored (data : PedestrianDataCreate) (now : ℤ)
    (store : List PedSample) :
    recordPedestrianData data now store
      = (if claimInBucharest data.lat data.lng then
          Except.ok (store ++ [ingestDoc data now],
            ("Pedestrian data recorded successfully").toList)
        else Except.error 400)
    ∧ (ingestAccepted (recordPedestrianData data now store) = true
        ↔ claimInBucharest data.lat data.lng)
    ∧ storeAfterRecord (recordPedestrianData data now store) store
      = (if claimInBucharest data.lat data.lng then store ++ [ingestDoc data now]
         else store) := by
  by_cases h : claimInBucharest data.lat data.lng
  · obtain ⟨h1, h2, h3, h4⟩ := h
    simp [recordPedestrianData, ingestDoc, ingestAccepted, storeAfterRecord,
      claimInBucharest, h1, h2, h3, h4]
  · have h2 : ¬ ((4435/100 : ℚ) ≤ data.lat ∧ data.lat ≤ 4455/100
        ∧ (2595/100 : ℚ) ≤ data.lng ∧ data.lng ≤ 2625/100) := h
    simp [recordPedestrianData, ingestAccepted, storeAfterRecord, h, h2]

/-! ### Idempotence lemmas for the anonymizer -/

/-- The floor of an integer cast to ℚ is itself. -/
lemma ratFloor_intCast (n : ℤ) : ((n : ℚ)).floor = n := by
  simp [Rat.floor, Rat.den_intCast, Rat.num_intCast]

/-- Banker's rounding is the identity on integers. -/
lemma pyRound_intCast (n : ℤ) : pyRound ((n : ℚ)) = n := by
  simp only [pyRound, ratFloor_intCast, sub_self]
  norm_num

/-- Rounding to four decimals is idempotent. -/
lemma round4q_idem (q : ℚ) : round4q (round4q q) = round4q q := by
  unfold round4q
  rw [div_mul_cancel₀ _ (by norm_num : (10000 : ℚ) ≠ 0), pyRound_intCast]

/-- The type normalization produces one of four constants. -/
lemma normType_cases (t : Str) :
    normType t = ("mobile").toList ∨ normType t = ("tablet").toList
    ∨ normType t = ("desktop").toList ∨ normType t = ("unknown").toList := by
  unfold normType
  split
  · exact Or.inl rfl
  · split
    · exact Or.inr (Or.inl rfl)
    · split
      · exact Or.inr (Or.inr (Or.inl rfl))
      · exact Or.inr (Or.inr (Or.inr rfl))

/-- The type normalization is idempotent. -/
lemma normType_idem (t : Str) : normType (normType t) = normType t := by
  rcases normType_cases t with h | h | h | h <;> rw [h] <;> decide

/-- The OS normalization produces one of six constants. -/
lemma normOS_cases (t : Str) :
    normOS t = ("Android").toList ∨ normOS t = ("iOS").toList
    ∨ normOS t = ("Windows").toList ∨ normOS t = ("macOS").toList
    ∨ normOS t = ("Linux").toList ∨ normOS t = ("Unknown").toList := by
  unfold normOS
  split
  · exact Or.inl rfl
  · split
    · exact Or.inr (Or.inl rfl)
    · split
      · exact Or.inr (Or.inr (Or.inl rfl))
      · split
        · exact Or.inr (Or.inr (Or.inr (Or.inl rfl)))
        · split
          · exact Or.inr (Or.inr (Or.inr (Or.inr (Or.inl rfl))))
          · exact Or.inr (Or.inr (Or.inr (Or.inr (Or.inr rfl))))

/-- The OS normalization is idempotent. -/
lemma normOS_idem (t : Str) : normOS (normOS t) = normOS t := by
  rcases normOS_cases t with h | h | h | h | h | h <;> rw [h] <;> decide

/-- Device-info sanitization is idempotent. -/
lemma sanitizeDeviceInfo_idem (x : Option DeviceInfo) :
    sanitizeDeviceInfo (sanitizeDeviceInfo x) = sanitizeDeviceInfo x := by
  have hmapT : ∀ o : Option Str, (o.map normType).map normType = o.map normType := by
    intro o; cases o with
    | none => rfl
    | some t => simp [normType_idem]
  have hmapO : ∀ o : Option Str, (o.map normOS).map normOS = o.map normOS := by
    intro o; cases o with
    | none => rfl
    | some t => simp [normOS_idem]
  cases x with
  | none => rfl
  | some d =>
    show sanitizeDeviceInfo (sanitizeDeviceInfo (some d)) = sanitizeDeviceInfo (some d)
    by_cases h1 : deviceTruthy d
    · by_cases h2 : deviceTruthy
          { type_ := d.type_.map normType, os := d.os.map normOS,
            browser := none, model := none, version := none }
      · simp only [sanitizeDeviceInfo, h1, h2, if_true, if_pos]
        simp [sanitizeDeviceInfo, h2, hmapT, hmapO]
      · simp [sanitizeDeviceInfo, h1, h2]
    · simp [sanitizeDeviceInfo, h1]

/-- Sanitized device info never carries `browser`, `model` or `version`. -/
lemma sanitizeDeviceInfo_no_fingerprint (v : Option DeviceInfo) (di : DeviceInfo)
    (h : sanitizeDeviceInfo v = some di) :
    di.browser = none ∧ di.model = none ∧ di.version = none := by
  cases v with
  | none => exact absurd h (by simp [sanitizeDeviceInfo])
  | some d =>
    by_cases h1 : deviceTruthy d
    · by_cases h2 : deviceTruthy
          { type_ := d.type_.map normType, os := d.os.map normOS,
            browser := none, model := none, version := none }
      · simp only [sanitizeDeviceInfo, h1, h2, if_true, if_pos] at h
        obtain rfl := Option.some.inj h
        exact ⟨rfl, rfl, rfl⟩
      · simp [sanitizeDeviceInfo, h1, h2] at h
    · simp [sanitizeDeviceInfo, h1] at h

/-- A list is a Boolean prefix of itself extended by anything. -/
lemma isPrefixOf_append_self (l t : List Char) : l.isPrefixOf (l ++ t) = true := by
  induction l with
  | nil => simp [List.isPrefixOf]
  | cons c cs ih => simp [List.isPrefixOf, ih]

/-- C2 amended: anonymization is idempotent exactly on samples whose raw
identifiers are absent or empty — there the whole record (device info,
coordinates, field set included) is stable under a second application;
a truthy identifier is re-hashed, which `claim_C2_counterexample` exhibits. -/
theorem claim_C2_amended (d : LocationData)
    (hu : isTruthyStr d.user_id = false) (hs : isTruthyStr d.session_id = false) :
    anonymizeLocationData (anonymizeLocationData d) = anonymizeLocationData d := by
  obtain ⟨u, s, di, la, lo, ex⟩ := d
  have hdi : ∀ o : Option (Option DeviceInfo),
      (o.map sanitizeDeviceInfo).map sanitizeDeviceInfo = o.map sanitizeDeviceInfo := by
    intro o; cases o with
    | none => rfl
    | some v => simp [sanitizeDeviceInfo_idem]
  simp only [isTruthyStr] at hu hs
  cases la <;> cases lo <;>
    simp [anonymizeLocationData, hu, hs, hdi, round4q_idem, isTruthyStr]



/-- Witness for `claim_C2_amended` at a concrete sample. -/
theorem claim_C2_amended_witness :
    (isTruthyStr c2Witness.user_id = false ∧ isTruthyStr c2Witness.session_id = false)
    ∧ anonymizeLocationData (anonymizeLocationData c2Witness)
      = anonymizeLocationData c2Witness :=
  ⟨⟨by decide, by decide⟩, claim_C2_amended c2Witness (by decide) (by decide)⟩

/-- C9 amended: the anonymizer's output satisfies `is_data_anonymized` iff no
session id survives the pass with the wrong prefix: for samples whose
session id is absent and whose user id is not the present-but-empty string,
the output passes the predicate (hashed user ids carry `anon_`, sanitized
device info has no fingerprint fields).  For any non-empty session id the
predicate fails (`claim_C9_counterexample`), because hashed session ids carry
`anon_`, not the `anon_session_` prefix the predicate demands. -/
theorem claim_C9_amended (d : LocationData) (hs : d.session_id = none)
    (hu : d.user_id ≠ some ([] : Str)) :
    isDataAnonymized (anonymizeLocationData d) = true := by
  obtain ⟨u, s, di, la, lo, ex⟩ := d
  simp only at hs
  subst hs
  have huser : ∀ x : Option Str, x = u →
      (match (if isTruthyStr x then anonymizeUserId x else x : Option Str) with
        | none => true
        | some w => anonMarker.isPrefixOf w) = true := by
    intro x hx
    cases x with
    | none => simp [isTruthyStr]
    | some us =>
      have hne : us ≠ [] := fun h => hu (by rw [← hx, h])
      have hemp : us.isEmpty = false := by
        cases us with
        | nil => exact absurd rfl hne
        | cons a as => rfl
      simp [isTruthyStr, hemp, anonymizeUserId, hashIdentifier,
        isPrefixOf_append_self]
  cases di with
  | none =>
    cases la <;> cases lo <;>
      simpa [anonymizeLocationData, isDataAnonymized, isTruthyStr] using huser u rfl
  | some v =>
    cases hv : sanitizeDeviceInfo v with
    | none =>
      cases la <;> cases lo <;>
        simpa [anonymizeLocationData, isDataAnonymized, isTruthyStr, hv] using
          huser u rfl
    | some di2 =>
      obtain ⟨hb, hm, hvv⟩ := sanitizeDeviceInfo_no_fingerprint _ _ hv
      cases la <;> cases lo <;>
        simpa [anonymizeLocationData, isDataAnonymized, isTruthyStr, hv, hb, hm,
          hvv] using huser u rfl



/-- Witness for `claim_C9_amended` at a concrete sample. -/
theorem claim_C9_amended_witness :
    (c9Witness.session_id = none ∧ c9Witness.user_id ≠ some ([] : Str))
    ∧ isDataAnonymized (anonymizeLocationData c9Witness) = true :=
  ⟨⟨by decide, by decide⟩, claim_C9_amended c9Witness (by decide) (by decide)⟩

/-! ### Stable descending sort lemmas (shared by C3, C4, C7, C8) -/

/-- Inserting permutes: the result is the element consed on the input. -/
lemma insertDescBy_perm {α β : Type} [LinearOrder β] (f : α → β) (x : α) :
    ∀ l : List α, List.Perm (insertDescBy f x l) (x :: l)
  | [] => List.Perm.refl _
  | y :: ys => by
    unfold insertDescBy
    split
    · exact ((insertDescBy_perm f x ys).cons y).trans (List.Perm.swap x y ys)
    · exact List.Perm.refl _

/-- Inserting preserves descending pairwise order. -/
lemma insertDescBy_pairwise {α β : Type} [LinearOrder β] (f : α → β) (x : α) :
    ∀ l : List α, l.Pairwise (fun a b => f b ≤ f a) →
      (insertDescBy f x l).Pairwise (fun a b => f b ≤ f a)
  | [], _ => List.pairwise_singleton _ _
  | y :: ys, h => by
    obtain ⟨hy, hys⟩ := List.pairwise_cons.mp h
    unfold insertDescBy
    split
    · next hxy =>
      refine List.pairwise_cons.mpr ⟨?_, insertDescBy_pairwise f x ys hys⟩
      intro z hz
      rcases List.mem_cons.mp (((insertDescBy_perm f x ys).mem_iff).mp hz) with
        rfl | hz2
      · exact hxy
      · exact hy z hz2
    · next hxy =>
      push_neg at hxy
      refine List.pairwise_cons.mpr ⟨?_, h⟩
      intro z hz
      rcases List.mem_cons.mp hz with rfl | hz2
      · exact hxy.le
      · exact (hy z hz2).trans hxy.le

/-- Stability of the insertion step: on a descending list, an inserted element
lands after every element sharing its key. -/
lemma insertDescBy_filter {α β : Type} [LinearOrder β] (f : α → β) (x : α) (c : β) :
    ∀ l : List α, l.Pairwise (fun a b => f b ≤ f a) →
      (insertDescBy f x l).filter (fun y => decide (f y = c))
        = if f x = c then l.filter (fun y => decide (f y = c)) ++ [x]
          else l.filter (fun y => decide (f y = c))
  | [], _ => by by_cases hc : f x = c <;> simp [insertDescBy, hc]
  | y :: ys, h => by
    obtain ⟨hy, hys⟩ := List.pairwise_cons.mp h
    unfold insertDescBy
    split
    · next hxy =>
      have ih := insertDescBy_filter f x c ys hys
      by_cases hc : f x = c <;> by_cases hyc : f y = c <;>
        simp [List.filter_cons, hc, hyc, ih]
    · next hxy =>
      push_neg at hxy
      by_cases hc : f x = c
      · have hnil : (y :: ys).filter (fun z => decide (f z = c)) = [] := by
          rw [List.filter_eq_nil_iff]
          intro z hz
          have hzy : f z ≤ f y := by
            rcases List.mem_cons.mp hz with rfl | hz2
            · exact le_refl _
            · exact hy z hz2
          have : f z < c := hc ▸ lt_of_le_of_lt hzy hxy
          simp [ne_of_lt this]
        simp [List.filter_cons, hc, hnil,
          List.filter_eq_nil_iff.mp hnil y (List.mem_cons_self y ys)]
      · simp [List.filter_cons, hc]

/-- Combined properties of the sorting fold: descending pairwise order,
permutation of the input, and stability (per-key filters are unchanged). -/
lemma sortFold_props {α β : Type} [LinearOrder β] (f : α → β) :
    ∀ (l acc : List α), acc.Pairwise (fun a b => f b ≤ f a) →
      (l.foldl (fun a x => insertDescBy f x a) acc).Pairwise (fun a b => f b ≤ f a)
      ∧ List.Perm (l.foldl (fun a x => insertDescBy f x a) acc) (acc ++ l)
      ∧ ∀ c : β,
          (l.foldl (fun a x => insertDescBy f x a) acc).filter (fun y => decide (f y = c))
            = acc.filter (fun y => decide (f y = c)) ++ l.filter (fun y => decide (f y = c))
  | [], acc, h => ⟨h, by simp, by simp⟩
  | x :: xs, acc, h => by
    have hp := insertDescBy_pairwise f x acc h
    obtain ⟨h1, h2, h3⟩ := sortFold_props f xs (insertDescBy f x acc) hp
    refine ⟨h1, ?_, ?_⟩
    · exact h2.trans (((insertDescBy_perm f x acc).append_right xs).trans
        (List.perm_middle.symm))
    · intro c
      simp only [List.foldl_cons]
      rw [h3 c, insertDescBy_filter f x c acc h]
      by_cases hc : f x = c <;> simp [List.filter_cons, hc, List.append_assoc]

/-- The stable sort is a permutation of its input. -/
lemma sortDescBy_perm {α β : Type} [LinearOrder β] (f : α → β) (l : List α) :
    List.Perm (sortDescBy f l) l := by
  simpa using (sortFold_props f l [] (List.Pairwise.nil)).2.1

/-- The stable sort is descending in the key. -/
lemma sortDescBy_pairwise {α β : Type} [LinearOrder β] (f : α → β) (l : List α) :
    (sortDescBy f l).Pairwise (fun a b => f b ≤ f a) :=
  (sortFold_props f l [] (List.Pairwise.nil)).1

/-- Stability of the sort: for each key value, the sublist of elements with
that key is exactly the input's. -/
lemma sortDescBy_filter {α β : Type} [LinearOrder β] (f : α → β) (l : List α)
    (c : β) :
    (sortDescBy f l).filter (fun y => decide (f y = c))
      = l.filter (fun y => decide (f y = c)) := by
  simpa using (sortFold_props f l [] (List.Pairwise.nil)).2.2 c

/-- C3 amended: the peak-hour list is the 3-element prefix of the stable
descending-by-count sort of the hour tally; the sorted list is a permutation
of the tally, descending in the count, and keeps equal-count entries in their
first-appearance order (the per-count filter is unchanged) — so ties break by
first appearance in the input sequence, not by ascending hour; every hour
left out of the top 3 has a count at most that of every hour kept. -/
theorem claim_C3_amended (hours : List ℕ) :
    peakHourPairs hours = (sortedTally hours).take 3
    ∧ (sortedTally hours).Pairwise (fun p q => q.2 ≤ p.2)
    ∧ List.Perm (sortedTally hours) (tally hours)
    ∧ (∀ c : ℕ, (sortedTally hours).filter (fun p => decide (p.2 = c))
        = (tally hours).filter (fun p => decide (p.2 = c)))
    ∧ (∀ p ∈ peakHourPairs hours, ∀ q ∈ tally hours,
        q ∉ peakHourPairs hours → q.2 ≤ p.2) := by
  refine ⟨rfl, sortDescBy_pairwise _ _, sortDescBy_perm _ _,
    fun c => sortDescBy_filter _ _ c, ?_⟩
  intro p hp q hq hnq
  have hqs : q ∈ sortedTally hours :=
    ((sortDescBy_perm (fun p : ℕ × ℕ => p.2) (tally hours)).mem_iff).mpr hq
  have hsplit := (List.take_append_drop 3 (sortedTally hours)).symm
  have hpw : (sortedTally hours).Pairwise (fun p q => q.2 ≤ p.2) :=
    sortDescBy_pairwise (fun p : ℕ × ℕ => p.2) (tally hours)
  rw [hsplit] at hpw hqs
  have hqdrop : q ∈ (sortedTally hours).drop 3 := by
    rcases List.mem_append.mp hqs with hqt | hqd
    · exact absurd hqt hnq
    · exact hqd
  exact (List.pairwise_append.mp hpw).2.2 p hp q hqdrop

/-- Witness for `claim_C3_amended`: on hours `[5,3,3,5,7,7,2]` the pair
`(5, 2)` is kept, `(2, 1)` is dropped, and the dropped count is no larger. -/
theorem claim_C3_amended_witness :
    (((5 : ℕ), (2 : ℕ)) ∈ peakHourPairs [5, 3, 3, 5, 7, 7, 2]
      ∧ ((2 : ℕ), (1 : ℕ)) ∈ tally [5, 3, 3, 5, 7, 7, 2]
      ∧ ((2 : ℕ), (1 : ℕ)) ∉ peakHourPairs [5, 3, 3, 5, 7, 7, 2])
    ∧ ((2 : ℕ), (1 : ℕ)).2 ≤ ((5 : ℕ), (2 : ℕ)).2 :=
  ⟨⟨by decide, by decide, by decide⟩,
    (claim_C3_amended [5, 3, 3, 5, 7, 7, 2]).2.2.2.2 (5, 2) (by decide) (2, 1)
      (by decide) (by decide)⟩

/-! ### Rank lemmas for the suggestion engine -/

/-- The rank loop writes consecutive integers starting at `i`. -/
lemma assignRanks_map_rank (i : ℕ) :
    ∀ l : List Suggestion,
      (assignRanks i l).map Suggestion.rank = (List.range' i l.length).map Int.ofNat
  | [] => rfl
  | s :: rest => by
    simp [assignRanks, List.range'_succ, assignRanks_map_rank (i + 1) rest]

/-- The rank loop keeps the length. -/
lemma assignRanks_length (i : ℕ) :
    ∀ l : List Suggestion, (assignRanks i l).length = l.length
  | [] => rfl
  | s :: rest => by simp [assignRanks, assignRanks_length (i + 1) rest]

/-- Each formatting step adds at most one suggestion. -/
lemma formatAIStep_length (bt : Str) (acc : List Suggestion) (s : ParsedSuggestion) :
    (formatAIStep bt acc s).length ≤ acc.length + 1 := by
  unfold formatAIStep
  cases s.lat <;> cases s.lng <;> simp

/-- The formatting fold grows the accumulator by at most the input length. -/
lemma formatAIFold_length (bt : Str) :
    ∀ (l : List ParsedSuggestion) (acc : List Suggestion),
      (l.foldl (formatAIStep bt) acc).length ≤ acc.length + l.length
  | [], acc => le_refl _
  | s :: rest, acc => by
    have h1 := formatAIFold_length bt rest (formatAIStep bt acc s)
    have h2 := formatAIStep_length bt acc s
    simp only [List.foldl_cons, List.length_cons]
    omega

/-- C8 amended: the simple (fallback) path returns ranks exactly `1..N` with
`N ≤ max_suggestions`; the AI path still never exceeds `max_suggestions`
entries, but its ranks come from the collaborator's response
(`claim_C8_counterexample` shows they need not be `1..N`). -/
theorem claim_C8_amended (lgs : List (Str × LocationGroup)) (bt : Str)
    (maxS : ℕ) :
    ((suggestBusinessLocationsSimple lgs bt maxS).map Suggestion.rank
      = (List.range' 1 (suggestBusinessLocationsSimple lgs bt maxS).length).map
          Int.ofNat)
    ∧ (suggestBusinessLocationsSimple lgs bt maxS).length ≤ maxS
    ∧ ∀ parsed : List ParsedSuggestion,
        (suggestBusinessLocationsWithAI (some parsed) lgs bt maxS).length ≤ maxS := by
  refine ⟨?_, ?_, ?_⟩
  · simp only [suggestBusinessLocationsSimple]
    rw [assignRanks_map_rank, assignRanks_length]
  · simp only [suggestBusinessLocationsSimple]
    rw [assignRanks_length]
    exact (List.length_take _ _).le.trans (min_le_left _ _)
  · intro parsed
    simp only [suggestBusinessLocationsWithAI, formatAISuggestions]
    have h := formatAIFold_length bt (parsed.take maxS) []
    have h2 : (parsed.take maxS).length ≤ maxS :=
      (List.length_take _ _).le.trans (min_le_left _ _)
    simp only [List.length_nil, Nat.zero_add] at h
    omega

/-! ### Histogram and membership lemmas (C4, C7) -/



/-- Bumping a tally raises the value sum by one. -/
lemma sumValues_tallyBump : ∀ (acc : List (ℕ × ℕ)) (x : ℕ),
    sumValues (tallyBump acc x) = sumValues acc + 1
  | [], x => rfl
  | (k, c) :: rest, x => by
    unfold tallyBump
    split
    · simp only [sumValues, List.map_cons, List.sum_cons]
      omega
    · have ih := sumValues_tallyBump rest x
      simp only [sumValues, List.map_cons, List.sum_cons] at ih ⊢
      omega

/-- Folding the tally over a list adds the list's length to the value sum. -/
lemma sumValues_tallyFold : ∀ (l : List ℕ) (acc : List (ℕ × ℕ)),
    sumValues (l.foldl tallyBump acc) = sumValues acc + l.length
  | [], acc => by simp
  | x :: xs, acc => by
    simp only [List.foldl_cons, List.length_cons]
    rw [sumValues_tallyFold xs (tallyBump acc x), sumValues_tallyBump]
    omega

/-- The values of a tally sum to the length of the tallied list. -/
lemma sumValues_tally (l : List ℕ) : sumValues (tally l) = l.length := by
  simpa [tally, sumValues] using sumValues_tallyFold l []

/-- Membership after a dict upsert comes from the dict or is the new value. -/
lemma mem_dictUpsert {α : Type} : ∀ (l : List (Str × α)) (k : Str) (v : α)
    (p : Str × α), p ∈ dictUpsert l k v → p ∈ l ∨ p.2 = v
  | [], k, v, p, h => Or.inr (by simp [dictUpsert] at h; simp [h])
  | (k2, w) :: rest, k, v, p, h => by
    unfold dictUpsert at h
    split at h
    · rcases List.mem_cons.mp h with rfl | h2
      · exact Or.inr rfl
      · exact Or.inl (List.mem_cons_of_mem _ h2)
    · rcases List.mem_cons.mp h with rfl | h2
      · exact Or.inl (List.mem_cons_self _ _)
      · rcases mem_dictUpsert rest k v p h2 with h3 | h3
        · exact Or.inl (List.mem_cons_of_mem _ h3)
        · exact Or.inr h3

/-- Every value of the result-dict fold is built from one of the docs. -/
lemma mem_groupFold : ∀ (docs : List GroupDoc) (acc : List (Str × LocationGroup))
    (p : Str × LocationGroup),
    p ∈ docs.foldl
      (fun a d => dictUpsert a (mkLocationGroup d).grid_key (mkLocationGroup d)) acc →
    p ∈ acc ∨ ∃ d ∈ docs, p.2 = mkLocationGroup d
  | [], acc, p, h => Or.inl h
  | d :: rest, acc, p, h => by
    simp only [List.foldl_cons] at h
    rcases mem_groupFold rest _ p h with h2 | ⟨d2, hd2, hp⟩
    · rcases mem_dictUpsert _ _ _ _ h2 with h3 | h3
      · exact Or.inl h3
      · exact Or.inr ⟨d, List.mem_cons_self _ _, h3⟩
    · exact Or.inr ⟨d2, List.mem_cons_of_mem _ hd2, hp⟩

/-- Every group in the aggregation result is `mkLocationGroup` of the doc of
one of the pipeline cells, and passed the `min_count` filter. -/
lemma mem_groupPedestrian (samples : List PedSample) (startTs endTs : Option ℤ)
    (mc : ℕ) (p : Str × LocationGroup)
    (h : p ∈ groupPedestrianDataByLocation samples startTs endTs mc) :
    ∃ cell ∈ groupByCell
        (samples.filter (fun s => inDateRange s.timestamp startTs endTs)),
      p.2 = mkLocationGroup (mkGroupDoc cell) ∧ mc ≤ (mkGroupDoc cell).count := by
  unfold groupPedestrianDataByLocation at h
  rcases mem_groupFold _ _ _ h with h2 | ⟨d, hd, hp⟩
  · exact absurd h2 (List.not_mem_nil p)
  · have hd2 : d ∈ ((groupByCell
        (samples.filter (fun s => inDateRange s.timestamp startTs endTs))).map
          mkGroupDoc).filter (fun d => decide (mc ≤ d.count)) :=
      ((sortDescBy_perm _ _).mem_iff).mp hd
    obtain ⟨hmem, hcount⟩ := List.mem_filter.mp hd2
    obtain ⟨cell, hcell, rfl⟩ := List.mem_map.mp hmem
    exact ⟨cell, hcell, hp, by simpa using hcount⟩

/-- C4: in every group of the aggregation result, both the hourly and the
daily histogram values sum to the group's count. -/
theorem claim_C4_histogram_sums (samples : List PedSample)
    (startTs endTs : Option ℤ) (mc : ℕ) (k : Str) (g : LocationGroup)
    (h : (k, g) ∈ groupPedestrianDataByLocation samples startTs endTs mc) :
    sumValues g.hourly_distribution = g.count
    ∧ sumValues g.daily_distribution = g.count := by
  obtain ⟨cell, _, hg, _⟩ := mem_groupPedestrian samples startTs endTs mc (k, g) h
  have hg2 : g = mkLocationGroup (mkGroupDoc cell) := hg
  rw [hg2]
  simp only [mkLocationGroup, mkGroupDoc]
  constructor <;> rw [sumValues_tally] <;> simp



/-- Witness for `claim_C4_histogram_sums` at a concrete aggregation run. -/
theorem claim_C4_witness :
    c4Pair ∈ c4Run
    ∧ sumValues c4Pair.2.hourly_distribution = c4Pair.2.count
    ∧ sumValues c4Pair.2.daily_distribution = c4Pair.2.count :=
  ⟨by decide,
   claim_C4_histogram_sums c4Samples none none 1 c4Pair.1 c4Pair.2 (by decide)⟩

/-! ### Traffic-score lemmas (C7) -/

/-- The multiplier fold adds `1/5` per peak hour in business hours. -/
lemma peakMultiplier_fold : ∀ (l : List (ℕ × ℕ)) (m : ℚ),
    l.foldl (fun m p => if 8 ≤ p.1 ∧ p.1 ≤ 20 then m + 1/5 else m) m
      = m + (l.countP (fun p => decide (8 ≤ p.1 ∧ p.1 ≤ 20)) : ℚ) / 5
  | [], m => by simp
  | p :: rest, m => by
    simp only [List.foldl_cons, List.countP_cons]
    by_cases hp : 8 ≤ p.1 ∧ p.1 ≤ 20
    · rw [if_pos hp, peakMultiplier_fold rest (m + 1/5)]
      simp only [decide_eq_true_eq, hp, and_self, if_true]
      push_cast
      ring
    · rw [if_neg hp, peakMultiplier_fold rest m]
      simp [hp]

/-- Closed form of `peak_multiplier`. -/
lemma peakMultiplier_eq (l : List (ℕ × ℕ)) :
    peakMultiplier l = 1 + (l.countP (fun p => decide (8 ≤ p.1 ∧ p.1 ≤ 20)) : ℚ) / 5 :=
  peakMultiplier_fold l 1

/-- Banker's rounding is the identity on naturals. -/
lemma pyRound_natCast (n : ℕ) : pyRound ((n : ℚ)) = (n : ℤ) := by
  have h : ((n : ℚ)) = (((n : ℤ) : ℚ)) := by push_cast; ring
  rw [h, pyRound_intCast]

/-- `round(x, 2)` is exact on `count * (1 + k/5)`. -/
lemma round2q_mul_exact (c k : ℕ) :
    round2q ((c : ℚ) * (1 + (k : ℚ) / 5)) = (c : ℚ) * (1 + (k : ℚ) / 5) := by
  have h : ((c : ℚ) * (1 + (k : ℚ) / 5)) * 100 = ((c * (100 + 20 * k) : ℕ) : ℚ) := by
    push_cast; ring
  unfold round2q
  rw [h, pyRound_natCast]
  push_cast
  field_simp
  ring

/-- C7: in every group of the aggregation result, the traffic score equals the
count times `1 + 0.2·k`, where `k` is the number of the group's peak hours
inside the business-hours window `8..20`. -/
theorem claim_C7_traffic_score (samples : List PedSample)
    (startTs endTs : Option ℤ) (mc : ℕ) (k : Str) (g : LocationGroup)
    (h : (k, g) ∈ groupPedestrianDataByLocation samples startTs endTs mc) :
    g.traffic_score = (g.count : ℚ)
      * (1 + (g.peak_hours.countP (fun hh => decide (8 ≤ hh ∧ hh ≤ 20)) : ℚ) / 5) := by
  obtain ⟨cell, _, hg, _⟩ := mem_groupPedestrian samples startTs endTs mc (k, g) h
  have hg2 : g = mkLocationGroup (mkGroupDoc cell) := hg
  rw [hg2]
  simp only [mkLocationGroup]
  rw [peakMultiplier_eq]
  simp only [List.countP_map, Function.comp]
  exact round2q_mul_exact _ _



/-- Witness for `claim_C7_traffic_score` at a concrete aggregation run. -/
theorem claim_C7_witness :
    c7Pair ∈ c7Run
    ∧ c7Pair.2.traffic_score = (c7Pair.2.count : ℚ)
      * (1 + (c7Pair.2.peak_hours.countP (fun hh => decide (8 ≤ hh ∧ hh ≤ 20)) : ℚ) / 5) :=
  ⟨by decide,
   claim_C7_traffic_score c7Samples none none 1 c7Pair.1 c7Pair.2 (by decide)⟩

/-! ### Snapshot-cache lemmas (C6) -/



/-- Membership after a snapshot upsert comes from the store or is the new doc. -/
lemma mem_upsertSnapshot : ∀ (ss : List Snapshot) (key : Str) (s b : Snapshot),
    b ∈ upsertSnapshot ss key s → b ∈ ss ∨ b = s
  | [], key, s, b, h => Or.inr (by simpa [upsertSnapshot] using h)
  | t :: rest, key, s, b, h => by
    unfold upsertSnapshot at h
    split at h
    · rcases List.mem_cons.mp h with rfl | h2
      · exact Or.inr rfl
      · exact Or.inl (List.mem_cons_of_mem _ h2)
    · rcases List.mem_cons.mp h with rfl | h2
      · exact Or.inl (List.mem_cons_self _ _)
      · rcases mem_upsertSnapshot rest key s b h2 with h3 | h3
        · exact Or.inl (List.mem_cons_of_mem _ h3)
        · exact Or.inr h3

/-- Upserting under a key preserves pairwise-distinct keys. -/
lemma upsertSnapshot_distinct : ∀ (ss : List Snapshot) (key : Str) (s : Snapshot),
    s.snapshot_key = key → snapKeysDistinct ss →
      snapKeysDistinct (upsertSnapshot ss key s)
  | [], key, s, hk, h => List.pairwise_singleton _ _
  | t :: rest, key, s, hk, h => by
    obtain ⟨ht, hrest⟩ := List.pairwise_cons.mp h
    unfold upsertSnapshot
    split
    · next he =>
      refine List.pairwise_cons.mpr ⟨?_, hrest⟩
      intro b hb
      rw [hk, ← he]
      exact (ht b hb).symm.symm
    · next he =>
      refine List.pairwise_cons.mpr
        ⟨?_, upsertSnapshot_distinct rest key s hk hrest⟩
      intro b hb
      rcases mem_upsertSnapshot rest key s b hb with h2 | rfl
      · exact ht b h2
      · rw [hk]; exact he

/-- C6: `get_or_create_snapshot` returns a snapshot under the derived key; if
`force_refresh` is false and a snapshot under that key was created within the
24-hour TTL, that snapshot is returned unchanged (same `created_at`) and the
store is untouched; otherwise — and always under `force_refresh` — a new
snapshot with `created_at = now` is computed and upserted under the same key,
and pairwise-distinct keys (at most one snapshot per key) are preserved. -/
theorem claim_C6_cache_semantics (pointStore : List PedSample)
    (snapStore : List Snapshot) (now : ℤ) (geocode : ℚ → ℚ → Option Str)
    (startTs endTs : Option ℤ) (force : Bool)
    (hinv : snapKeysDistinct snapStore) :
    (getOrCreateSnapshot pointStore snapStore now geocode startTs endTs
        force).1.snapshot_key = snapKeyFor now startTs endTs
    ∧ (match cacheLookup snapStore now (snapKeyFor now startTs endTs) force with
       | some s =>
         getOrCreateSnapshot pointStore snapStore now geocode startTs endTs force
           = (s, snapStore)
       | none =>
         (getOrCreateSnapshot pointStore snapStore now geocode startTs endTs
             force).1.created_at = now
         ∧ (getOrCreateSnapshot pointStore snapStore now geocode startTs endTs
             force).2
           = upsertSnapshot snapStore (snapKeyFor now startTs endTs)
              (getOrCreateSnapshot pointStore snapStore now geocode startTs endTs
                force).1)
    ∧ snapKeysDistinct
        (getOrCreateSnapshot pointStore snapStore now geocode startTs endTs
          force).2 := by
  have hfreshkey : (freshSnapshot pointStore now geocode startTs endTs).snapshot_key
      = snapKeyFor now startTs endTs := rfl
  have hfreshcr : (freshSnapshot pointStore now geocode startTs endTs).created_at
      = now := rfl
  cases hc : cacheLookup snapStore now (snapKeyFor now startTs endTs) force with
  | some s =>
    have hfind : snapStore.find? (isFreshFor (snapKeyFor now startTs endTs) now)
        = some s := by
      cases force with
      | true => exact absurd hc (by simp [cacheLookup])
      | false => simpa [cacheLookup] using hc
    have hfresh : isFreshFor (snapKeyFor now startTs endTs) now s = true :=
      List.find?_some hfind
    have hkey : s.snapshot_key = snapKeyFor now startTs endTs :=
      (of_decide_eq_true hfresh).1
    refine ⟨?_, ?_, ?_⟩
    · simp only [getOrCreateSnapshot, hc]
      exact hkey
    · show getOrCreateSnapshot pointStore snapStore now geocode startTs endTs
        force = (s, snapStore)
      simp only [getOrCreateSnapshot, hc]
    · simp only [getOrCreateSnapshot, hc]
      exact hinv
  | none =>
    refine ⟨?_, ?_, ?_⟩
    · simp only [getOrCreateSnapshot, hc]
      exact hfreshkey
    · show (getOrCreateSnapshot pointStore snapStore now geocode startTs endTs
          force).1.created_at = now
        ∧ (getOrCreateSnapshot pointStore snapStore now geocode startTs endTs
            force).2
          = upsertSnapshot snapStore (snapKeyFor now startTs endTs)
              (getOrCreateSnapshot pointStore snapStore now geocode startTs endTs
                force).1
      exact ⟨by simp only [getOrCreateSnapshot, hc]; exact hfreshcr,
        by simp only [getOrCreateSnapshot, hc]⟩
    · simp only [getOrCreateSnapshot, hc]
      exact upsertSnapshot_distinct snapStore _ _ hfreshkey hinv



/-- Witness for `claim_C6_cache_semantics` on a store holding one fresh
snapshot. -/
theorem claim_C6_cache_witness :
    snapKeysDistinct [c6Snap]
    ∧ (getOrCreateSnapshot [] [c6Snap] 1000 (fun _ _ => none) (some 0)
        (some 1000) false).1.snapshot_key = snapKeyFor 1000 (some 0) (some 1000)
    ∧ snapKeysDistinct
        (getOrCreateSnapshot [] [c6Snap] 1000 (fun _ _ => none) (some 0)
          (some 1000) false).2 :=
  ⟨by decide,
   (claim_C6_cache_semantics [] [c6Snap] 1000 (fun _ _ => none) (some 0)
     (some 1000) false (by decide)).1,
   (claim_C6_cache_semantics [] [c6Snap] 1000 (fun _ _ => none) (some 0)
     (some 1000) false (by decide)).2.2⟩

/-- C10: the top-level analysis reports `from_cache = not force_refresh`
regardless of whether the snapshot was freshly computed, and the `use_cache`
parameter has no effect on the result. -/
theorem claim_C10_from_cache (ps : List PedSample) (ss : List Snapshot)
    (now : ℤ) (geo : ℚ → ℚ → Option Str) (ai : Option (List ParsedSuggestion))
    (s e : Option ℤ) (bt : Str) (maxS : ℕ) (u1 u2 force : Bool) :
    ((analyzePedestrianLocations ps ss now geo ai s e bt maxS u1 force).1.from_cache
      = !force)
    ∧ analyzePedestrianLocations ps ss now geo ai s e bt maxS u1 force
      = analyzePedestrianLocations ps ss now geo ai s e bt maxS u2 force := by
  constructor
  · simp [analyzePedestrianLocations, snapshotHasCreatedAt]
  · rfl

end Weaversong
